import Mathlib

/-
Verification development for the pbipy Power BI client library
(src/pbipy/admin.py and src/pbipy/imports.py).

The Python source is shallowly embedded: each Admin method is split into
pure Lean functions for (a) the resource path it requests, (b) the request
parameter dictionary it builds, and (c) the projection of the raw JSON
response into entity values.  The transport layer is abstracted away: each
operation takes the decoded raw response as an explicit argument.

Raw JSON payload objects are modelled as association lists from string
keys to string values (the fields the library reads — "id", "workspaceId",
"objectId" — are strings in the wire format).  Python `dict.get` semantics
are reproduced exactly, including the `None`-on-missing-key behaviour and
the optional default argument.
-/

set_option autoImplicit false

namespace Pbipy

/-- A raw JSON payload object: association list of string keys to string
values, looked up with Python `dict.get` semantics. -/
abbrev RawObj := List (String × String)

/-- Python `obj.get(k)`: the value at the first matching key, `None`
(here `none`) when the key is absent. -/
def RawObj.pyGet (o : RawObj) (k : String) : Option String :=
  (o.find? (fun kv => kv.1 == k)).map Prod.snd

/-- Python `obj.get(k, default)`: the value at the key when present,
otherwise the supplied default (which may itself be `None`). -/
def RawObj.pyGetD (o : RawObj) (k : String) (d : Option String) : Option String :=
  match o.pyGet k with
  | some v => some v
  | none => d

/-- Python f-string rendering of an optional string: `None` renders as
the literal text "None", a string renders as itself. -/
def pyStr : Option String → String
  | none => "None"
  | some s => s

/-- Modelled from the spec: `pbipy.settings.BASE_URL` (settings.py is not
under src/).  The claims constrain only how the constant is concatenated
into addresses, never its exact value. -/
def BASE_URL : String := "https://api.powerbi.com/v1.0/myorg"

/-- App entity (pbipy.apps.App is not under src/; modelled from the spec:
an Entity holds its identity and its cached raw payload — the session
handle carries no information for verification and is omitted).  Admin
constructs it as `App(app_js.get("id"), session, raw=app_js)`, so the
identity is the payload's "id" value, `none` when absent. -/
structure App where
  id : Option String
  raw : RawObj
deriving DecidableEq

/-- Dashboard entity (pbipy.dashboards.Dashboard is not under src/;
modelled from the spec, like `App`). -/
structure Dashboard where
  id : Option String
  raw : RawObj
deriving DecidableEq

/-- Dataflow entity (pbipy.dataflows.Dataflow is not under src/; modelled
from the spec: identity, optional parent scope, cached raw payload). -/
structure Dataflow where
  id : Option String
  group_id : Option String
  raw : RawObj
deriving DecidableEq

/-- Dataset entity (pbipy.datasets.Dataset is not under src/; modelled
from the spec, like `Dataflow`). -/
structure Dataset where
  id : Option String
  group_id : Option String
  raw : RawObj
deriving DecidableEq

/-- Group entity (pbipy.groups.Group is not under src/; modelled from the
spec: `identity: string`).  Only its `id` attribute is read by the code
under src/. -/
structure Group where
  id : String
deriving DecidableEq

/-- The polymorphic `str | Group` reference accepted by Admin methods. -/
inductive GroupRef
  | ident (s : String)
  | obj (g : Group)
deriving DecidableEq

/-- The polymorphic `str | Dashboard` reference accepted by Admin methods. -/
inductive DashboardRef
  | ident (s : String)
  | obj (d : Dashboard)
deriving DecidableEq

/-- The polymorphic `str | Dataflow` reference accepted by Admin methods. -/
inductive DataflowRef
  | ident (s : String)
  | obj (d : Dataflow)
deriving DecidableEq

/-- The polymorphic `str | App` reference accepted by Admin methods. -/
inductive AppRef
  | ident (s : String)
  | obj (a : App)
deriving DecidableEq

/-- Tile entity (pbipy.dashboards.Tile is not under src/; modelled from
the spec: it stores the identity, the parent scope and the raw payload it
is constructed with, verbatim).  The `dashboard_id` field holds exactly
the value the call site passes for the `dashboard_id=` parameter; in
`Admin.dashboard_tiles` that value is the polymorphic `dashboard`
argument itself, hence the field's type. -/
structure Tile where
  id : Option String
  dashboard_id : DashboardRef
  raw : RawObj
deriving DecidableEq

/-- Python truthiness of an optional `str | Group` argument: `None` and
the empty string are falsy, any other string and every `Group` object is
truthy.  This is the `if group:` test in the Admin list methods. -/
def pyTruthyGroup : Option GroupRef → Bool
  | none => false
  | some (.ident s) => !(s == "")
  | some (.obj _) => true

/-- The resolution step `group.id if isinstance(group, Group) else group`
used inside the truthy branch of the Admin list methods. -/
def GroupRef.resolve : GroupRef → String
  | .ident s => s
  | .obj g => g.id

/-- A request parameter value: the Admin methods pass strings (filter,
expand) and ints (skip, top). -/
inductive ParamVal
  | str (s : String)
  | int (n : Int)
deriving DecidableEq

/-- A request parameter dictionary as built by the Admin methods: keys
paired with possibly-`None` values, in insertion order. -/
abbrev Params := List (String × Option ParamVal)

/-- Modelled from the spec: the transport helper
`pbipy.utils.RequestsMixin.get_raw` (utils.py is not under src/)
serializes a parameter dictionary before issuing the request; per the
spec, "only non-null options appear in the serialized request
parameters; omitted options never appear with a null/empty
placeholder". -/
def serializeParams (ps : Params) : List (String × ParamVal) :=
  ps.filterMap (fun kv =>
    match kv.2 with
    | some v => some (kv.1, v)
    | none => none)

namespace Admin

/-- admin.py line 21: `self.resource_path = "/admin"`. -/
def resource_path : String := "/admin"

/-- admin.py line 22: `self.base_path = f"{self.BASE_URL}{self.resource_path}"`. -/
def base_path : String := BASE_URL ++ resource_path

/-- admin.py lines 348-354: `group_id = None; if group: group_id = group.id
if isinstance(group, Group) else group`.  The same block appears in
`dashboards`, `dataflows` and `datasets`. -/
def groupId : Option GroupRef → Option String
  | none => none
  | some g => if pyTruthyGroup (some g) then some g.resolve else none

/-- admin.py line 87: the resource requested by `Admin.apps`. -/
def appsResource : String := base_path ++ "/apps"

/-- admin.py line 88: `params = {"$top": top}` in `Admin.apps`. -/
def appsParams (top : Option Int) : Params :=
  [("$top", top.map ParamVal.int)]

/-- admin.py lines 92-101: `Admin.apps` projects each element of the raw
list response into an `App(app_js.get("id"), self.session, raw=app_js)`,
in response order.  The `top` argument only feeds the request parameters
(`appsParams`); the raw response is passed in explicitly. -/
def apps (raw : List RawObj) : List App :=
  raw.map (fun app_js => { id := app_js.pyGet "id", raw := app_js })

/-- admin.py lines 107-112: `Admin.app_users` resolves its polymorphic
`app` argument: `app_id = app.id if isinstance(app, App) else app`. -/
def appUsersAppId : AppRef → Option String
  | .ident s => some s
  | .obj a => a.id

/-- admin.py line 112: the resource requested by `Admin.app_users`. -/
def appUsersResource (app : AppRef) : String :=
  base_path ++ "/apps/" ++ pyStr (appUsersAppId app) ++ "/users"

/-- admin.py lines 149-157: path selection in `Admin.dashboards`:
`/groups/{group_id}/dashboards` when `group` is truthy, else
`/dashboards`. -/
def dashboardsPath (group : Option GroupRef) : String :=
  match groupId group with
  | some gid => "/groups/" ++ gid ++ "/dashboards"
  | none => "/dashboards"

/-- admin.py line 159: the resource requested by `Admin.dashboards`. -/
def dashboardsResource (group : Option GroupRef) : String :=
  base_path ++ dashboardsPath group

/-- admin.py lines 161-166: the parameter dictionary of `Admin.dashboards`
(all four keys always present, values possibly `None`; no key is ever
removed, whether or not a group was supplied). -/
def dashboardsParams (expand filter : Option String) (skip top : Option Int) : Params :=
  [("$expand", expand.map ParamVal.str),
   ("$filter", filter.map ParamVal.str),
   ("$skip", skip.map ParamVal.int),
   ("$top", top.map ParamVal.int)]

/-- admin.py lines 170-179: `Admin.dashboards` projects each raw element
into `Dashboard(dashboard_js.get("id"), self.session, raw=dashboard_js)`,
in response order; no parent scope is passed. -/
def dashboards (raw : List RawObj) : List Dashboard :=
  raw.map (fun dashboard_js => { id := dashboard_js.pyGet "id", raw := dashboard_js })

/-- admin.py lines 230-233: resolution of the polymorphic `dashboard`
argument of `Admin.dashboard_tiles` (and the other dashboard methods):
`dashboard_id = dashboard.id if isinstance(dashboard, Dashboard) else
dashboard`. -/
def dashboardTilesDashboardId : DashboardRef → Option String
  | .ident s => some s
  | .obj d => d.id

/-- admin.py line 235: the resource requested by `Admin.dashboard_tiles`,
built from the resolved `dashboard_id`. -/
def dashboardTilesResource (dashboard : DashboardRef) : String :=
  base_path ++ "/dashboards/" ++ pyStr (dashboardTilesDashboardId dashboard) ++ "/tiles"

/-- admin.py lines 238-246: `Admin.dashboard_tiles` projects each raw
element into `Tile(tile_js.get("id"), dashboard_id=dashboard, ...,
raw=tile_js)`.  Note the call site passes `dashboard` — the original
polymorphic argument — not the resolved `dashboard_id` used for the
request path. -/
def dashboard_tiles (dashboard : DashboardRef) (raw : List RawObj) : List Tile :=
  raw.map (fun tile_js =>
    { id := tile_js.pyGet "id", dashboard_id := dashboard, raw := tile_js })

/-- The Python value returned by `Admin.dataflow`: either the `Dataflow`
class object itself (admin.py line 305: `return Dataflow`, with no request
issued) or a `Dataflow` instance. -/
inductive DataflowResult
  | classObject
  | entity (d : Dataflow)
deriving DecidableEq

/-- admin.py line 307: the resource requested by `Admin.dataflow` when
its argument is a string id. -/
def dataflowResource (dataflow_id : String) : String :=
  base_path ++ "/dataflows/" ++ dataflow_id ++ "/export"

/-- admin.py lines 304-317: `Admin.dataflow`.  If the argument is a
`Dataflow` instance the method returns the class object `Dataflow`
immediately (line 305) without issuing a request; otherwise it builds a
`Dataflow(raw.get("objectId"), self.session, group_id=None, raw=raw)`
from the export payload. -/
def dataflow (dataflow : DataflowRef) (raw : RawObj) : DataflowResult :=
  match dataflow with
  | .obj _ => .classObject
  | .ident _ => .entity { id := raw.pyGet "objectId", group_id := none, raw := raw }

/-- admin.py lines 350-358: path selection in `Admin.dataflows`. -/
def dataflowsPath (group : Option GroupRef) : String :=
  match groupId group with
  | some gid => "/groups/" ++ gid ++ "/dataflows"
  | none => "/dataflows"

/-- admin.py line 366: the resource requested by `Admin.dataflows`. -/
def dataflowsResource (group : Option GroupRef) : String :=
  base_path ++ dataflowsPath group

/-- admin.py lines 360-364: the parameter dictionary of `Admin.dataflows`. -/
def dataflowsParams (filter : Option String) (skip top : Option Int) : Params :=
  [("$filter", filter.map ParamVal.str),
   ("$skip", skip.map ParamVal.int),
   ("$top", top.map ParamVal.int)]

/-- admin.py lines 369-379: `Admin.dataflows` projects each raw element
into `Dataflow(id=dataflow_js.get("id"), ...,
group_id=dataflow_js.get("workspaceId", group_id), raw=dataflow_js)`,
where `group_id` is the resolved caller scope (or `None`). -/
def dataflows (group : Option GroupRef) (raw : List RawObj) : List Dataflow :=
  let group_id := groupId group
  raw.map (fun dataflow_js =>
    { id := dataflow_js.pyGet "id",
      group_id := dataflow_js.pyGetD "workspaceId" group_id,
      raw := dataflow_js })

/-- admin.py lines 509-518: the parameter dictionary of `Admin.datasets`:
all four keys, then `params.pop("$expand")` when `group is None` (note:
an identity-with-`None` test, not a truthiness test). -/
def datasetsParams (group : Option GroupRef) (expand filter : Option String) (skip top : Option Int) : Params :=
  let params : Params :=
    [("$expand", expand.map ParamVal.str),
     ("$filter", filter.map ParamVal.str),
     ("$skip", skip.map ParamVal.int),
     ("$top", top.map ParamVal.int)]
  if group.isNone then params.filter (fun kv => !(kv.1 == "$expand")) else params

/-- admin.py lines 523-531: path selection in `Admin.datasets`. -/
def datasetsPath (group : Option GroupRef) : String :=
  match groupId group with
  | some gid => "/groups/" ++ gid ++ "/datasets"
  | none => "/datasets"

/-- admin.py line 533: the resource requested by `Admin.datasets`. -/
def datasetsResource (group : Option GroupRef) : String :=
  base_path ++ datasetsPath group

/-- admin.py lines 536-546: `Admin.datasets` projects each raw element
into `Dataset(id=dataset_js.get("id"), ...,
group_id=dataset_js.get("workspaceId", group_id), raw=dataset_js)`. -/
def datasets (group : Option GroupRef) (raw : List RawObj) : List Dataset :=
  let group_id := groupId group
  raw.map (fun dataset_js =>
    { id := dataset_js.pyGet "id",
      group_id := dataset_js.pyGetD "workspaceId" group_id,
      raw := dataset_js })

end Admin

/-- Python truthiness of an optional string argument: `None` and the
empty string are falsy.  This is the `if group_id:` / `if self.group_id:`
test in `Import.__init__`. -/
def pyTruthyStrOpt : Option String → Bool
  | none => false
  | some s => !(s == "")

/-- The state of an `Import` object after `Import.__init__`
(imports.py lines 24-46).  `rawCache` models the payload stored by
`self._load_from_raw(raw)`; `_load_from_raw` lives in pbipy/resources.py,
which is not under src/, and is modelled from the spec: "stores it
verbatim as `rawCache`".  The session handle is omitted. -/
structure ImportObj where
  id : String
  group_id : Option String
  resource_path : String
  base_path : String
  rawCache : Option RawObj
deriving DecidableEq

/-- imports.py lines 24-46: `Import.__init__`.  `super().__init__(id,
session)` (pbipy/resources.py `Resource.__init__`, not under src/) is
modelled from the spec as storing the identity.  The `group_id` parameter
is annotated `str | Group`; the `Group`-object alternative is not
modelled here because the claims under verification supply identifier
strings or `None` (a `Group` object would be interpolated into the path
by `repr`, which the available source does not define).  The constructor
stores `group_id` when truthy, else `None` (lines 33-36), then picks the
group-scoped or top-level resource path by a second truthiness test
(lines 38-41), and sets `base_path = BASE_URL + resource_path`
(line 43).  `raw` is loaded only when truthy (line 45): `None` and the
empty dict are falsy. -/
def importInit (id : String) (group_id : Option String) (raw : Option RawObj) : ImportObj :=
  let g : Option String := if pyTruthyStrOpt group_id then group_id else none
  let rp : String :=
    if pyTruthyStrOpt g then "/groups/" ++ pyStr g ++ "/imports/" ++ id
    else "/imports/" ++ id
  { id := id
    group_id := g
    resource_path := rp
    base_path := BASE_URL ++ rp
    rawCache :=
      match raw with
      | some r => if r.isEmpty then none else some r
      | none => none }

/-- C1: evaluation of `Admin.dataflow` at a `Dataflow`-object input.  The
code returns the `Dataflow` class object itself (`return Dataflow`,
admin.py line 305) instead of behaving as if called with the object's id:
called with the id `"df1"` it returns a `Dataflow` entity built from the
export payload, which is a different value. -/
theorem admin_dataflow_returns_class_on_entity_input :
    Admin.dataflow
        (DataflowRef.obj { id := some "df1", group_id := none, raw := [("objectId", "df1")] })
        [("objectId", "df1")]
      = Admin.DataflowResult.classObject
    ∧ Admin.dataflow (DataflowRef.ident "df1") [("objectId", "df1")]
      = Admin.DataflowResult.entity
          { id := some "df1", group_id := none, raw := [("objectId", "df1")] }
    ∧ Admin.DataflowResult.classObject
      ≠ Admin.DataflowResult.entity
          { id := some "df1", group_id := none, raw := [("objectId", "df1")] } := by
  decide

/-- C2: parent-scope inheritance in `Admin.dataflows` and
`Admin.datasets`.  An element whose payload carries a `workspaceId` key
yields an entity whose `group_id` is that payload value; an element
without the key inherits the resolved caller-supplied scope; with no
caller scope and no key the entity is scope-less (`group_id = none`). -/
theorem admin_list_scope_inheritance
    (group : Option GroupRef) (raw : List RawObj) (i : Nat) (js : RawObj)
    (hjs : raw[i]? = some js) :
    (∀ v, js.pyGet "workspaceId" = some v →
        ((Admin.dataflows group raw)[i]?.map Dataflow.group_id = some (some v)
         ∧ (Admin.datasets group raw)[i]?.map Dataset.group_id = some (some v)))
    ∧ (js.pyGet "workspaceId" = none → ∀ g : GroupRef, group = some g →
        pyTruthyGroup (some g) = true →
        ((Admin.dataflows group raw)[i]?.map Dataflow.group_id = some (some g.resolve)
         ∧ (Admin.datasets group raw)[i]?.map Dataset.group_id = some (some g.resolve)))
    ∧ (js.pyGet "workspaceId" = none → group = none →
        ((Admin.dataflows group raw)[i]?.map Dataflow.group_id = some none
         ∧ (Admin.datasets group raw)[i]?.map Dataset.group_id = some none)) := by
  have hdf : (Admin.dataflows group raw)[i]? = some
      { id := js.pyGet "id",
        group_id := js.pyGetD "workspaceId" (Admin.groupId group), raw := js } := by
    simp [Admin.dataflows, hjs]
  have hds : (Admin.datasets group raw)[i]? = some
      { id := js.pyGet "id",
        group_id := js.pyGetD "workspaceId" (Admin.groupId group), raw := js } := by
    simp [Admin.datasets, hjs]
  refine ⟨fun v hv => ?_, fun h g hg htr => ?_, fun h hn => ?_⟩
  · rw [hdf, hds]
    simp [RawObj.pyGetD, hv]
  · subst hg
    rw [hdf, hds]
    simp [RawObj.pyGetD, h, Admin.groupId, htr]
  · subst hn
    rw [hdf, hds]
    simp [RawObj.pyGetD, h, Admin.groupId]

/-- C2 witness: the spec's example — scope `"G"`, raw response
`[{id:"a"}, {id:"b", workspaceId:"H"}]` — the second entity's parent
scope is `"H"` (element-level override wins). -/
theorem admin_list_scope_inheritance_witness :
    (Admin.dataflows (some (GroupRef.ident "G"))
        [[("id", "a")], [("id", "b"), ("workspaceId", "H")]])[1]?.map Dataflow.group_id
      = some (some "H") :=
  ((admin_list_scope_inheritance (some (GroupRef.ident "G"))
      [[("id", "a")], [("id", "b"), ("workspaceId", "H")]] 1
      [("id", "b"), ("workspaceId", "H")] (by decide)).1 "H" (by decide)).1

/-- C3: evaluation of `Admin.dashboard_tiles` at a `Dashboard`-object
input.  The request path uses the resolved id `"d1"`, but each
constructed `Tile` carries the original `Dashboard` object — not the
resolved identifier string — as its `dashboard_id` (admin.py line 241
passes `dashboard_id=dashboard`). -/
theorem admin_dashboard_tiles_scope_not_resolved :
    Admin.dashboardTilesResource (DashboardRef.obj { id := some "d1", raw := [("id", "d1")] })
      = Admin.base_path ++ "/dashboards/d1/tiles"
    ∧ (Admin.dashboard_tiles (DashboardRef.obj { id := some "d1", raw := [("id", "d1")] })
        [[("id", "t1")]]).map Tile.dashboard_id
      = [DashboardRef.obj { id := some "d1", raw := [("id", "d1")] }]
    ∧ DashboardRef.obj { id := some "d1", raw := [("id", "d1")] } ≠ DashboardRef.ident "d1" := by
  decide

/-- C4 counterexample: `Admin.dashboards` does NOT drop `expand` on the
organization-wide endpoint: with no group supplied the resource is the
org-wide `/dashboards` path, yet a supplied `expand="tiles"` still
appears in the serialized request parameters. -/
theorem admin_dashboards_expand_sent_on_org_endpoint :
    Admin.dashboardsResource none = Admin.base_path ++ "/dashboards"
    ∧ ("$expand", ParamVal.str "tiles")
        ∈ serializeParams (Admin.dashboardsParams (some "tiles") none none none) := by
  decide

/-- C4 (amended): only `Admin.datasets` drops `$expand`, and it does so
exactly when `group is None`: no serialized parameter of an
organization-wide `Admin.datasets` call has key `$expand`; with a group
supplied, a non-null expand is sent.  `Admin.dashboards` sends a
non-null expand unconditionally. -/
theorem admin_expand_dropped_only_in_datasets
    (expand filter : Option String) (skip top : Option Int) (g : GroupRef) (v : String) :
    (∀ p ∈ serializeParams (Admin.datasetsParams none expand filter skip top), p.1 ≠ "$expand")
    ∧ (expand = some v →
        ("$expand", ParamVal.str v)
          ∈ serializeParams (Admin.datasetsParams (some g) expand filter skip top))
    ∧ (expand = some v →
        ("$expand", ParamVal.str v)
          ∈ serializeParams (Admin.dashboardsParams expand filter skip top)) := by
  refine ⟨?_, fun he => ?_, fun he => ?_⟩
  · cases expand <;> cases filter <;> cases skip <;> cases top <;>
      simp [serializeParams, Admin.datasetsParams]
  · subst he
    cases filter <;> cases skip <;> cases top <;>
      simp [serializeParams, Admin.datasetsParams]
  · subst he
    cases filter <;> cases skip <;> cases top <;>
      simp [serializeParams, Admin.dashboardsParams]

/-- C4 witness: with a group supplied, `Admin.datasets` sends
`$expand=tiles`. -/
theorem admin_expand_dropped_only_in_datasets_witness :
    ("$expand", ParamVal.str "tiles")
      ∈ serializeParams (Admin.datasetsParams (some (GroupRef.ident "G"))
          (some "tiles") none none none) :=
  (admin_expand_dropped_only_in_datasets (some "tiles") none none none
      (GroupRef.ident "G") "tiles").2.1 rfl

/-- C5: the serialized request parameters of `Admin.dashboards` and
`Admin.apps` contain exactly the caller-supplied non-null options: a
key/value pair appears precisely when the corresponding option was
supplied with that value, and an unset (`none`) option contributes no
pair at all. -/
theorem admin_params_exactly_non_null
    (expand filter : Option String) (skip top : Option Int) (k : String) (v : ParamVal) :
    ((k, v) ∈ serializeParams (Admin.dashboardsParams expand filter skip top)
      ↔ ((k = "$expand" ∧ expand.map ParamVal.str = some v)
         ∨ (k = "$filter" ∧ filter.map ParamVal.str = some v)
         ∨ (k = "$skip" ∧ skip.map ParamVal.int = some v)
         ∨ (k = "$top" ∧ top.map ParamVal.int = some v)))
    ∧ ((k, v) ∈ serializeParams (Admin.appsParams top)
      ↔ (k = "$top" ∧ top.map ParamVal.int = some v)) := by
  constructor
  · cases expand <;> cases filter <;> cases skip <;> cases top <;>
      simp [serializeParams, Admin.dashboardsParams] <;> tauto
  · cases top <;> simp [serializeParams, Admin.appsParams]
    tauto

/-- C6 counterexample: a raw element with no `id` key yields an `App`
whose identity is `None`, not a non-empty string. -/
theorem admin_apps_identity_absent :
    (Admin.apps [([] : RawObj)]).map App.id = [none]
    ∧ ∀ s : String, ¬ ((none : Option String) = some s ∧ s ≠ "") :=
  ⟨by decide, fun _ h => Option.noConfusion h.1⟩

/-- C6 (amended): the identity is assigned from the payload at
construction — `id` for list elements, `objectId` for the dataflow
export — and is a non-empty string whenever the payload supplies a
non-empty string there; a payload lacking the key yields a `None`
identity. -/
theorem admin_identity_from_payload
    (raw : List RawObj) (i : Nat) (js : RawObj) (hjs : raw[i]? = some js)
    (s : String) (hid : js.pyGet "id" = some s) (hs : s ≠ "")
    (rawDf : RawObj) (t : String) (hoid : rawDf.pyGet "objectId" = some t) (ht : t ≠ "")
    (dfid : String) :
    ((Admin.apps raw)[i]?.map App.id = some (some s) ∧ s ≠ "")
    ∧ (Admin.dataflow (DataflowRef.ident dfid) rawDf
        = Admin.DataflowResult.entity { id := some t, group_id := none, raw := rawDf }
       ∧ t ≠ "") := by
  refine ⟨⟨?_, hs⟩, ?_, ht⟩
  · simp [Admin.apps, hjs, hid]
  · simp [Admin.dataflow, hoid]

/-- C6 witness: a payload with `id="a1"` yields identity `"a1"`, and an
export payload with `objectId="df1"` yields a Dataflow with identity
`"df1"`. -/
theorem admin_identity_from_payload_witness :
    ((Admin.apps [[("id", "a1")]])[0]?.map App.id = some (some "a1") ∧ "a1" ≠ "")
    ∧ (Admin.dataflow (DataflowRef.ident "df1") [("objectId", "df1")]
        = Admin.DataflowResult.entity
            { id := some "df1", group_id := none, raw := [("objectId", "df1")] }
       ∧ "df1" ≠ "") :=
  admin_identity_from_payload [[("id", "a1")]] 0 [("id", "a1")] (by decide)
    "a1" (by decide) (by decide)
    [("objectId", "df1")] "df1" (by decide) (by decide) "df1"

/-- C7: `Import.__init__` with identity `i` and a non-empty parent scope
`g` sets `resource_path = "/groups/" ++ g ++ "/imports/" ++ i`; with no
scope it sets `"/imports/" ++ i`; in both cases `base_path` is exactly
`BASE_URL` concatenated with `resource_path`.  Both are fields computed
once by the pure constructor, so identical inputs yield identical
output. -/
theorem import_resource_path_and_address
    (i g : String) (hg : g ≠ "") (raw : Option RawObj) :
    (importInit i (some g) raw).resource_path = "/groups/" ++ g ++ "/imports/" ++ i
    ∧ (importInit i none raw).resource_path = "/imports/" ++ i
    ∧ (importInit i (some g) raw).base_path
        = BASE_URL ++ (importInit i (some g) raw).resource_path
    ∧ (importInit i none raw).base_path
        = BASE_URL ++ (importInit i none raw).resource_path := by
  simp [importInit, pyTruthyStrOpt, pyStr, hg]

/-- C7 witness: concrete identity `"imp1"` and scope `"grp1"`. -/
theorem import_resource_path_and_address_witness :
    (importInit "imp1" (some "grp1") none).resource_path
      = "/groups/" ++ "grp1" ++ "/imports/" ++ "imp1" :=
  (import_resource_path_and_address "imp1" "grp1" (by decide) none).1

/-- C8: `Admin.datasets` and `Admin.dashboards` return exactly one entity
per raw response element, in response order: the output length equals the
input length and the i-th entity is built from the i-th raw element. -/
theorem admin_list_ops_preserve_order
    (group : Option GroupRef) (raw : List RawObj) (i : Nat) (hi : i < raw.length) :
    (Admin.datasets group raw).length = raw.length
    ∧ (Admin.dashboards raw).length = raw.length
    ∧ (Admin.datasets group raw)[i]? = some
        { id := (raw.get ⟨i, hi⟩).pyGet "id"
          group_id := (raw.get ⟨i, hi⟩).pyGetD "workspaceId" (Admin.groupId group)
          raw := raw.get ⟨i, hi⟩ }
    ∧ (Admin.dashboards raw)[i]? = some
        { id := (raw.get ⟨i, hi⟩).pyGet "id", raw := raw.get ⟨i, hi⟩ } := by
  refine ⟨by simp [Admin.datasets], by simp [Admin.dashboards], ?_, ?_⟩
  · simp [Admin.datasets, List.getElem?_eq_getElem hi]
  · simp [Admin.dashboards, List.getElem?_eq_getElem hi]

/-- C8 witness: a two-element response maps positionally to two
entities. -/
theorem admin_list_ops_preserve_order_witness :
    (Admin.datasets none [[("id", "a")], [("id", "b")]]).length
      = ([[("id", "a")], [("id", "b")]] : List RawObj).length :=
  (admin_list_ops_preserve_order none [[("id", "a")], [("id", "b")]] 0 (by decide)).1

/-- C9: every list operation maps an empty raw response to the empty
list of entities (never an absent value — the result type is a list). -/
theorem admin_list_ops_empty_response (group : Option GroupRef) :
    Admin.apps [] = [] ∧ Admin.dashboards [] = []
    ∧ Admin.dataflows group [] = [] ∧ Admin.datasets group [] = [] :=
  ⟨rfl, rfl, rfl, rfl⟩

/-- C10: `Import.__init__` treats falsy `group_id` arguments — `None`
and the empty string — as an absent parent scope: the stored `group_id`
is `None` and the resource path takes the top-level `/imports/{id}`
form, never a `/groups//imports/{id}` form with an empty parent
segment. -/
theorem import_falsy_group_is_absent (i : String) (raw : Option RawObj) :
    (importInit i none raw).group_id = none
    ∧ (importInit i (some "") raw).group_id = none
    ∧ (importInit i none raw).resource_path = "/imports/" ++ i
    ∧ (importInit i (some "") raw).resource_path = "/imports/" ++ i
    ∧ (importInit i (some "") raw).resource_path ≠ "/groups/" ++ "" ++ "/imports/" ++ i := by
  refine ⟨?_, ?_, ?_, ?_, ?_⟩ <;>
    simp [importInit, pyTruthyStrOpt, pyStr]
  intro h
  have h2 := congrArg String.length h
  simp [String.length_append] at h2
  exact absurd h2 (by decide)

end Pbipy
